import Mathlib

/-!
Shallow embedding of the frontend-tutorial task-tracking application.

Each definition is translated from one source file of the repository:
  * `JValue`                — JSON values as exchanged with the mock REST API
  * session service         — src/entities/session/api (mock login/check/logout)
  * todo validation schemas — src/entities/todo/model/validation.js (zod)
  * shared validation       — src/shared/lib/validation/validateApi.js
  * todo store              — src/entities/todo/store/todoStore.js (zustand)
  * local-only todo hook    — src/entities/todo `useTodos` (useLocalStorage backed)
  * shared form hook        — src/shared/lib/hooks/useForm.js
-/

/-- JSON values, the universe of data the JavaScript program manipulates.
Objects are ordered association lists, matching JS object key ordering;
numbers are modelled as integers. -/
inductive JValue where
  | jnull : JValue
  | jbool (b : Bool) : JValue
  | jnum (n : Int) : JValue
  | jstr (s : String) : JValue
  | jarr (items : List JValue) : JValue
  | jobj (fields : List (String × JValue)) : JValue
deriving Repr

/-- Type name of a JSON value, as zod reports it in default error messages. -/
def jTypeName : JValue → String
  | .jnull => "null"
  | .jbool _ => "boolean"
  | .jnum _ => "number"
  | .jstr _ => "string"
  | .jarr _ => "array"
  | .jobj _ => "object"

/-- Property lookup on a JS object: the first binding of the key, if any. -/
def jGet (fields : List (String × JValue)) (k : String) : Option JValue :=
  (fields.find? (fun p => p.1 = k)).map Prod.snd

/-! ## Browser local storage

`localStorage` modelled as an association list from keys to string values. -/

abbrev Storage := List (String × String)

/-- JS `localStorage.getItem(k)`. -/
def getItem (st : Storage) (k : String) : Option String :=
  (st.find? (fun p => p.1 = k)).map Prod.snd

/-- JS `localStorage.setItem(k, v)`: replaces any binding of `k` with `v`. -/
def setItem (st : Storage) (k v : String) : Storage :=
  (k, v) :: st.filter (fun p => ¬ p.1 = k)

/-- JS `localStorage.removeItem(k)`. -/
def removeItem (st : Storage) (k : String) : Storage :=
  st.filter (fun p => ¬ p.1 = k)

/-! ## Mock session service (src/entities/session/api/sessionApi.js)

```js
const MOCK_USER = { email: 'user@example.com', password: 'password123' }
async login({ email, password }) {
  await new Promise(resolve => setTimeout(resolve, 500))
  if (email === MOCK_USER.email && password === MOCK_USER.password) {
    const token = 'mock-jwt-token'
    localStorage.setItem('token', token)
    return { token }
  }
  throw new Error('Invalid email or password')
}
```
The ≈500 ms simulated latency is a real-time effect outside the embedding;
the returned `{ token }` object is modelled by its single token string.
A thrown `Error` is the `Except.error` branch carrying the error message. -/

def mockEmail : String := "user@example.com"

def mockPassword : String := "password123"

def mockToken : String := "mock-jwt-token"

/-- The service `sessionApi.login`: result (token or thrown message) paired with the
local storage as left behind by the call. -/
def sessionLogin (email password : String) (st : Storage) :
    Except String String × Storage :=
  if email = mockEmail ∧ password = mockPassword then
    (Except.ok mockToken, setItem st "token" mockToken)
  else
    (Except.error "Invalid email or password", st)

/-- The service `sessionApi.check`: succeeds exactly when a token is stored. -/
def sessionCheck (st : Storage) : Except String Bool :=
  match getItem st "token" with
  | none => Except.error "Unauthorized"
  | some _ => Except.ok true

/-- The service `sessionApi.logout`: clears the persisted token. -/
def sessionLogout (st : Storage) : Storage :=
  removeItem st "token"

/-! A first sanity check that the embedding computes. -/

example : (sessionLogin "user@example.com" "password123" []).1 =
    Except.ok "mock-jwt-token" := rfl

example : (sessionLogin "user@example.com" "wrong" []).1 =
    Except.error "Invalid email or password" := rfl

/-! ## Task data model

A task as held in the stores and collections: id, title, completed.
`Date.now()` ids and server ids are both numbers, modelled as `Int`. -/

structure Todo where
  id : Int
  title : String
  completed : Bool
deriving Repr, DecidableEq

/-- A normalized API error as produced by the response interceptor:
the shape every HTTP failure is coerced into. -/
structure ApiFailure where
  message : String
deriving Repr, DecidableEq

/-! ## Remote-backed todo store (src/entities/todo/store/todoStore.js)

```js
addTodo: async (todo) => {
  set({ isLoading: true, error: null });
  try {
    const newTodo = await todoApi.createTodo(todo);
    set((state) => ({ todos: [...state.todos, newTodo], isLoading: false }));
    return true;
  } catch (error) {
    set({ error: error.message, isLoading: false });
    return false;
  }
}
```
The network call's outcome is a parameter: `Except ApiFailure Todo` stands
for the settled promise of `todoApi.createTodo`. -/

structure TodoState where
  todos : List Todo
  isLoading : Bool
  error : Option String
deriving Repr, DecidableEq

/-- The store operation `useTodoStore.addTodo`: final state after the operation settles, paired
with the boolean it returns to the caller. -/
def addTodo (s : TodoState) (apiResult : Except ApiFailure Todo) :
    TodoState × Bool :=
  match apiResult with
  | Except.ok newTodo =>
      ({ todos := s.todos ++ [newTodo], isLoading := false, error := none }, true)
  | Except.error e =>
      ({ todos := s.todos, isLoading := false, error := some e.message }, false)

/-! ## Local-only todo operations (the `useTodos` hook)

```js
const addTodo = useCallback((title) => {
  const newTodo = { id: Date.now(), title, completed: false }
  setTodos(prev => [...prev, newTodo])
}, [setTodos])

const toggleTodo = useCallback((id) => {
  setTodos(prev => prev.map(todo =>
    todo.id === id ? { ...todo, completed: !todo.completed } : todo
  ))
}, [setTodos])

const deleteTodo = useCallback((id) => {
  setTodos(prev => prev.filter(todo => todo.id !== id))
}, [setTodos])

const clearCompleted = useCallback(() => {
  setTodos(prev => prev.filter(todo => !todo.completed))
}, [setTodos])
```
`Date.now()` is passed in as the `now` argument. -/

def localAddTodo (todos : List Todo) (now : Int) (title : String) : List Todo :=
  todos ++ [{ id := now, title := title, completed := false }]

def toggleTodo (todos : List Todo) (id : Int) : List Todo :=
  todos.map (fun todo =>
    if todo.id = id then { todo with completed := !todo.completed } else todo)

def deleteTodo (todos : List Todo) (id : Int) : List Todo :=
  todos.filter (fun todo => todo.id ≠ id)

def clearCompleted (todos : List Todo) : List Todo :=
  todos.filter (fun todo => !todo.completed)

/-- JS `String.prototype.trim`: whitespace removed from both ends. -/
def jsTrim (s : String) : String :=
  String.mk ((s.toList.dropWhile Char.isWhitespace).reverse.dropWhile
    Char.isWhitespace).reverse

/-- The hand-rolled create form's submit gate: it calls `onSubmit` only when
the trimmed draft title is non-empty (`if (!title.trim()) return`). -/
def handRolledFormAccepts (title : String) : Bool :=
  !(jsTrim title = "")

/-! ## Generic form-state hook (src/shared/lib/hooks/useForm.js)

```js
const handleSubmit = useCallback((onSubmit) => (e) => {
  e.preventDefault()
  const newErrors = {}
  Object.keys(values).forEach(key => {
    if (!values[key]) newErrors[key] = 'This field is required'
  })
  if (Object.keys(newErrors).length === 0) {
    onSubmit(values)
    setValues(initialValues)
  } else {
    setErrors(newErrors)
  }
}, [values, initialValues])
```
Values are the strings of text inputs; the only falsy string is `""`.
The handler invocation is reified as the optional second component:
`some vs` means `onSubmit` was called with `vs`, `none` that it was not. -/

structure FormState where
  values : List (String × String)
  errors : List (String × String)
deriving Repr, DecidableEq

/-- The `newErrors` object built by `handleSubmit`: one
"This field is required" entry per empty field, in field order. -/
def requiredErrors (values : List (String × String)) : List (String × String) :=
  (values.filter (fun p => p.2 = "")).map (fun p => (p.1, "This field is required"))

/-- The hook's `handleSubmit(onSubmit)` applied to the current state. -/
def handleSubmit (initialValues : List (String × String)) (st : FormState) :
    FormState × Option (List (String × String)) :=
  let newErrors := requiredErrors st.values
  if newErrors = [] then
    ({ values := initialValues, errors := st.errors }, some st.values)
  else
    ({ values := st.values, errors := newErrors }, none)

/-! ## Zod schemas (src/entities/todo/model/validation.js)

```js
export const todoItemSchema = z.object({
  id: z.number(),
  title: z.string().min(3, 'Title must be at least 3 characters')
                   .max(50, 'Title must be less than 50 characters'),
  completed: z.boolean(),
  createdAt: z.string().datetime().optional(),
  updatedAt: z.string().datetime().optional()
})
export const createTodoSchema = z.object({
  title: z.string().min(3, 'Title must be at least 3 characters')
                   .max(50, 'Title must be less than 50 characters'),
  completed: z.boolean().default(false)
})
export const apiErrorSchema = z.object({
  message: z.string(),
  code: z.number().optional(),
  details: z.record(z.any()).optional()
})
```
A zod issue is its path plus message. `.parse` on an object schema collects
one issue list over all declared fields, strips undeclared keys from the
output, and emits the output keys in schema declaration order. -/

structure Issue where
  path : List String
  message : String
deriving Repr, DecidableEq

/-- The maximum title length active in the canonical schemas (the extended
tutorial variant raises it to 10000; the schemas embedded here use 50). -/
def maxTitleLength : Nat := 50

/-- Zod's default datetime format, `\d{4}-\d{2}-\d{2}T\d{2}:\d{2}:\d{2}`
then an optional `.\d+` fraction, then a literal `Z`: the continuation
after the seconds, one-or-more digits followed by a final `Z`. -/
def digitsThenZ : List Char → Bool
  | [] => false
  | ['Z'] => true
  | c :: rest => c.isDigit && digitsThenZ rest

/-- Zod's `z.string().datetime()` with default options: matches
`^\d{4}-\d{2}-\d{2}T\d{2}:\d{2}:\d{2}(\.\d+)?Z$`. -/
def isZodDatetime (s : String) : Bool :=
  match s.toList with
  | y1 :: y2 :: y3 :: y4 :: '-' :: mo1 :: mo2 :: '-' :: d1 :: d2 :: 'T' ::
      h1 :: h2 :: ':' :: mi1 :: mi2 :: ':' :: s1 :: s2 :: rest =>
      [y1, y2, y3, y4, mo1, mo2, d1, d2, h1, h2, mi1, mi2, s1, s2].all Char.isDigit &&
      (match rest with
        | ['Z'] => true
        | '.' :: frac =>
            (match frac with
              | c :: _ => c.isDigit
              | [] => false) && digitsThenZ frac
        | _ => false)
  | _ => false

/-- Issues of the `title` rule shared by the todo schemas. -/
def titleIssues (s : String) : List Issue :=
  (if s.length < 3 then [⟨["title"], "Title must be at least 3 characters"⟩] else []) ++
  (if maxTitleLength < s.length then [⟨["title"], "Title must be less than 50 characters"⟩] else [])

/-- Issues of `z.number()` on a required field. -/
def numFieldIssues (path : String) (o : Option JValue) : List Issue :=
  match o with
  | none => [⟨[path], "Required"⟩]
  | some (.jnum _) => []
  | some w => [⟨[path], "Expected number, received " ++ jTypeName w⟩]

/-- Issues of `z.boolean()` on a required field. -/
def boolFieldIssues (path : String) (o : Option JValue) : List Issue :=
  match o with
  | none => [⟨[path], "Required"⟩]
  | some (.jbool _) => []
  | some w => [⟨[path], "Expected boolean, received " ++ jTypeName w⟩]

/-- Issues of the `title` field rule on a required field. -/
def titleFieldIssues (o : Option JValue) : List Issue :=
  match o with
  | none => [⟨["title"], "Required"⟩]
  | some (.jstr s) => titleIssues s
  | some w => [⟨["title"], "Expected string, received " ++ jTypeName w⟩]

/-- Issues of `z.string().datetime().optional()` on a field. -/
def optDatetimeFieldIssues (path : String) (o : Option JValue) : List Issue :=
  match o with
  | none => []
  | some (.jstr s) => if isZodDatetime s then [] else [⟨[path], "Invalid datetime"⟩]
  | some w => [⟨[path], "Expected string, received " ++ jTypeName w⟩]

/-- Issue list of `todoItemSchema.parse` over the fields of an input object,
in schema declaration order, with zod's default messages for type errors. -/
def todoItemFieldIssues (fs : List (String × JValue)) : List Issue :=
  numFieldIssues "id" (jGet fs "id") ++
  titleFieldIssues (jGet fs "title") ++
  boolFieldIssues "completed" (jGet fs "completed") ++
  optDatetimeFieldIssues "createdAt" (jGet fs "createdAt") ++
  optDatetimeFieldIssues "updatedAt" (jGet fs "updatedAt")

/-- The keys declared by `todoItemSchema`, in declaration order. -/
def todoItemKeys : List String :=
  ["id", "title", "completed", "createdAt", "updatedAt"]

/-- The object a successful `todoItemSchema.parse` returns: the declared
keys that are present in the input, in declaration order, with their input
values; undeclared keys are stripped. -/
def stripToTodoItem (fs : List (String × JValue)) : List (String × JValue) :=
  todoItemKeys.filterMap (fun k => (jGet fs k).map (fun v => (k, v)))

/-- The parse `todoItemSchema.parse(v)`: the parsed object, or the collected issues. -/
def todoItemParse (v : JValue) : Except (List Issue) JValue :=
  match v with
  | .jobj fs =>
      match todoItemFieldIssues fs with
      | [] => Except.ok (.jobj (stripToTodoItem fs))
      | issues => Except.error issues
  | w => Except.error [⟨[], "Expected object, received " ++ jTypeName w⟩]

/-- Declarative check "the field holds a number". -/
def isNumField (o : Option JValue) : Bool :=
  match o with
  | some (.jnum _) => true
  | _ => false

/-- Declarative check "the field holds a boolean". -/
def isBoolField (o : Option JValue) : Bool :=
  match o with
  | some (.jbool _) => true
  | _ => false

/-- Declarative check "the field holds a string with length in the
configured title bounds". -/
def isTitleField (o : Option JValue) : Bool :=
  match o with
  | some (.jstr s) => decide (3 ≤ s.length) && decide (s.length ≤ maxTitleLength)
  | _ => false

/-- Declarative check "the field is absent or holds a datetime string". -/
def isOptDatetimeField (o : Option JValue) : Bool :=
  match o with
  | none => true
  | some (.jstr s) => isZodDatetime s
  | some _ => false

/-- Declarative conformance to `todoItemSchema`, read off the schema's rule
set: an object whose `id` is a number, whose `title` is a string with length
in the configured bounds, whose `completed` is a boolean, and whose
`createdAt`/`updatedAt`, when present, are datetime strings. -/
def todoItemConforms (v : JValue) : Bool :=
  match v with
  | .jobj fs =>
      isNumField (jGet fs "id") &&
      isTitleField (jGet fs "title") &&
      isBoolField (jGet fs "completed") &&
      isOptDatetimeField (jGet fs "createdAt") &&
      isOptDatetimeField (jGet fs "updatedAt")
  | _ => false

/-! ## Create pipeline (useTodoForm → todoApi.createTodo)

The form's submit handler validates the draft through
`zodResolver(todoSchema)` (title rule only); a resolver failure surfaces the
field messages and never calls `onSubmit`, so no request is issued. On
resolver success `todoApi.createTodo(data)` runs
`createTodoSchema.parse(data)` and posts the validated body. Drafts are a
string title plus an optional boolean completed flag (absent at the form's
call sites, where `completed` defaults to `false` or is omitted). -/

structure CreateDraft where
  title : String
  completed : Option Bool
deriving Repr, DecidableEq

/-- The body `createTodoSchema.parse` produces: `completed` filled in by the
zod `.default(false)` when the draft omits it. -/
structure CreateData where
  title : String
  completed : Bool
deriving Repr, DecidableEq

/-- The parse `createTodoSchema.parse` on a draft object. -/
def createTodoParse (d : CreateDraft) : Except (List Issue) CreateData :=
  match titleIssues d.title with
  | [] => Except.ok { title := d.title, completed := d.completed.getD false }
  | issues => Except.error issues

/-- The create form's submit pipeline for a typed title: `Except.error`
means the resolver rejected the draft (field messages shown, no request);
`Except.ok body` means a create request was issued with `body`. -/
def todoFormSubmit (title : String) : Except (List Issue) CreateData :=
  match titleIssues title with
  | [] => createTodoParse { title := title, completed := none }
  | issues => Except.error issues

/-! ## Normalized API error (apiErrorSchema) -/

structure NormalizedError where
  message : String
  code : Option Int
  details : Option (List (String × JValue))
deriving Repr

/-- Zod's `z.number().optional()` applied to an optional field: `some c` is a
successful parse yielding `c`, `none` a type failure. -/
def parseOptNum : Option JValue → Option (Option Int)
  | none => some none
  | some (.jnum n) => some (some n)
  | some _ => none

/-- Zod's `z.record(z.any()).optional()` applied to an optional field. -/
def parseOptRecord : Option JValue → Option (Option (List (String × JValue)))
  | none => some none
  | some (.jobj ds) => some (some ds)
  | some _ => none

/-- Success and parsed value of `apiErrorSchema.parse`. The issue list of a
failed parse is discarded by its only caller `validateApiError`, so a failed
parse is collapsed to `none`. -/
def apiErrorParse (v : JValue) : Option NormalizedError :=
  match v with
  | .jobj fs =>
      match jGet fs "message", parseOptNum (jGet fs "code"),
          parseOptRecord (jGet fs "details") with
      | some (.jstr m), some c, some d => some { message := m, code := c, details := d }
      | _, _, _ => none
  | _ => none

/-- Declarative conformance to the Normalized API Error shape:
message text, optional numeric code, optional key-value details map. -/
def apiErrorConforms (v : JValue) : Bool :=
  match v with
  | .jobj fs =>
      (match jGet fs "message" with
        | some (.jstr _) => true
        | _ => false) &&
      (match jGet fs "code" with
        | none => true
        | some (.jnum _) => true
        | _ => false) &&
      (match jGet fs "details" with
        | none => true
        | some (.jobj _) => true
        | _ => false)
  | _ => false

/-! ## Shared validation helpers (src/shared/lib/validation/validateApi.js)

```js
export const validateApiResponse = (schema, data) => {
  try { return schema.parse(data) }
  catch (error) {
    if (error instanceof ZodError) {
      console.error('Validation failed:', error.errors)
      throw new ValidationError('API response validation failed', error.errors)
    }
    throw error
  }
}
export const validateApiError = (error) => {
  try { return apiErrorSchema.parse(error) }
  catch (validationError) {
    console.error('Error response validation failed:', validationError)
    return { message: 'An unexpected error occurred', code: 500 }
  }
}
```
-/

/-- The `ValidationError` instance thrown by `validateApiResponse`:
its `name`, its generic message, and the zod issue list it carries. -/
structure ValidationFailure where
  name : String
  message : String
  errors : List Issue
deriving Repr, DecidableEq

/-- The helper `validateApiResponse(schema, data)` for a schema given by its parse
function: `Except.error` is the thrown `ValidationError`. -/
def validateApiResponse (parse : JValue → Except (List Issue) JValue)
    (v : JValue) : Except ValidationFailure JValue :=
  match parse v with
  | Except.ok parsed => Except.ok parsed
  | Except.error issues =>
      Except.error { name := "ValidationError",
                     message := "API response validation failed",
                     errors := issues }

/-- The fallback object `validateApiError` returns on a failed parse. -/
def fallbackError : NormalizedError :=
  { message := "An unexpected error occurred", code := some 500, details := none }

/-- The helper `validateApiError(error)`: the parsed error, or the fallback. -/
def validateApiError (v : JValue) : NormalizedError :=
  match apiErrorParse v with
  | some e => e
  | none => fallbackError

/-! ## Reachable states of the local-only collection

One step per user-triggerable local operation of the `useTodos` hook. -/

inductive LocalOp where
  | add (now : Int) (title : String) : LocalOp
  | toggle (id : Int) : LocalOp
  | del (id : Int) : LocalOp
  | clear : LocalOp
deriving Repr, DecidableEq

/-- One local-only operation applied to the collection. -/
def applyLocalOp (todos : List Todo) : LocalOp → List Todo
  | .add now title => localAddTodo todos now title
  | .toggle id => toggleTodo todos id
  | .del id => deleteTodo todos id
  | .clear => clearCompleted todos

/-- The title-bounds part of the Task invariant. -/
def TitleInBounds (t : Todo) : Prop :=
  3 ≤ t.title.length ∧ t.title.length ≤ maxTitleLength

instance (t : Todo) : Decidable (TitleInBounds t) := by
  unfold TitleInBounds; infer_instance

/-- An operation whose added title (if it adds one) is within the bounds. -/
def addsInBounds : LocalOp → Prop
  | .add _ title => 3 ≤ title.length ∧ title.length ≤ maxTitleLength
  | _ => True

/-! # Theorems -/

/-! ## Helper lemmas -/

theorem getItem_setItem_self (st : Storage) (k v : String) :
    getItem (setItem st k v) k = some v := by
  simp [getItem, setItem, List.find?]

theorem toggleTodo_toggleTodo (todos : List Todo) (id : Int) :
    toggleTodo (toggleTodo todos id) id = todos := by
  induction todos with
  | nil => rfl
  | cons t ts ih =>
      simp only [toggleTodo, List.map_cons] at ih ⊢
      refine congrArg₂ List.cons ?_ ih
      cases t with
      | mk i ti c => by_cases ht : i = id <;> simp [ht]

/-! ## Claims -/

/-- C2: the mock session service's `login(email, password)` succeeds exactly
for the credential pair `user@example.com` / `password123`, returning the
fixed token string; for every other input pair it fails with an
"Invalid email or password" error and no token is returned. -/
theorem c2_mock_login_exact_credentials (email password : String) (st : Storage) :
    (email = mockEmail ∧ password = mockPassword →
      (sessionLogin email password st).1 = Except.ok mockToken) ∧
    (¬(email = mockEmail ∧ password = mockPassword) →
      (sessionLogin email password st).1 = Except.error "Invalid email or password") := by
  constructor <;> intro h <;> simp [sessionLogin, h]

theorem c2_mock_login_exact_credentials_witness :
    (sessionLogin "user@example.com" "password123" []).1 = Except.ok "mock-jwt-token" ∧
    (sessionLogin "user@example.com" "hunter2" []).1 =
      Except.error "Invalid email or password" :=
  ⟨(c2_mock_login_exact_credentials "user@example.com" "password123" []).1 ⟨rfl, rfl⟩,
   (c2_mock_login_exact_credentials "user@example.com" "hunter2" []).2 (by decide)⟩

/-- C10: on a successful mock login (the fixed credential pair), the session
service itself writes the fixed token to durable storage under the `token`
key before returning, independently of the session store's own persistence
step; on a failed login the service leaves durable storage unchanged. -/
theorem c10_login_service_persists_token (email password : String) (st : Storage) :
    (email = mockEmail ∧ password = mockPassword →
      (sessionLogin email password st).2 = setItem st "token" mockToken ∧
      getItem (sessionLogin email password st).2 "token" = some mockToken) ∧
    (¬(email = mockEmail ∧ password = mockPassword) →
      (sessionLogin email password st).2 = st) := by
  refine ⟨fun h => ?_, fun h => ?_⟩
  · constructor
    · simp [sessionLogin, h]
    · simp [sessionLogin, h, getItem_setItem_self]
  · simp [sessionLogin, h]

theorem c10_login_service_persists_token_witness :
    getItem (sessionLogin "user@example.com" "password123" []).2 "token" =
      some "mock-jwt-token" ∧
    (sessionLogin "user@example.com" "hunter2" [("token", "stale")]).2 =
      [("token", "stale")] :=
  ⟨((c10_login_service_persists_token "user@example.com" "password123" []).1
      ⟨rfl, rfl⟩).2,
   (c10_login_service_persists_token "user@example.com" "hunter2"
      [("token", "stale")]).2 (by decide)⟩

/-- C3: for every store state and every outcome of the task API, `addTodo`
returns true and appends exactly the API-returned item to the end of the
collection when the call succeeds; when the call fails it returns false,
sets the error field, and leaves the collection exactly as it was. -/
theorem c3_addTodo_appends_or_fails_atomically (s : TodoState)
    (r : Except ApiFailure Todo) :
    (∀ t, r = Except.ok t →
      addTodo s r =
        ({ todos := s.todos ++ [t], isLoading := false, error := none }, true)) ∧
    (∀ e, r = Except.error e →
      addTodo s r =
        ({ todos := s.todos, isLoading := false, error := some e.message }, false)) := by
  constructor <;> rintro x rfl <;> rfl

theorem c3_addTodo_appends_or_fails_atomically_witness :
    addTodo { todos := [{ id := 1, title := "abc", completed := true }],
              isLoading := true, error := none }
        (Except.ok { id := 2, title := "def", completed := false }) =
      ({ todos := [{ id := 1, title := "abc", completed := true },
                   { id := 2, title := "def", completed := false }],
         isLoading := false, error := none }, true) ∧
    addTodo { todos := [{ id := 1, title := "abc", completed := true }],
              isLoading := true, error := none }
        (Except.error { message := "Request failed" }) =
      ({ todos := [{ id := 1, title := "abc", completed := true }],
         isLoading := false, error := some "Request failed" }, false) :=
  ⟨(c3_addTodo_appends_or_fails_atomically _ _).1 _ rfl,
   (c3_addTodo_appends_or_fails_atomically _ _).2 _ rfl⟩

/-- C4: for every task collection and every id present in it, applying the
toggle operation twice in succession returns that task's completed flag to
its original value and leaves every other task, and every other field of
the toggled task, unchanged: the collection is restored exactly. -/
theorem c4_toggle_twice_roundtrip (todos : List Todo) (id : Int)
    (h : ∃ t ∈ todos, t.id = id) :
    toggleTodo (toggleTodo todos id) id = todos :=
  toggleTodo_toggleTodo todos id

theorem c4_toggle_twice_roundtrip_witness :
    toggleTodo (toggleTodo [{ id := 1, title := "abc", completed := false },
                            { id := 2, title := "def", completed := true }] 1) 1 =
      [{ id := 1, title := "abc", completed := false },
       { id := 2, title := "def", completed := true }] :=
  c4_toggle_twice_roundtrip _ 1
    ⟨{ id := 1, title := "abc", completed := false }, by simp, rfl⟩

/-- C5: `clearCompleted` removes exactly the tasks whose completed flag is
true — membership in the result is membership in the input with
`completed = false` — and the survivors keep their original relative order
(the result is a sublist of the input). -/
theorem c5_clearCompleted_removes_completed (todos : List Todo) :
    List.Sublist (clearCompleted todos) todos ∧
    ∀ t, t ∈ clearCompleted todos ↔ t ∈ todos ∧ t.completed = false := by
  refine ⟨List.filter_sublist todos, fun t => ?_⟩
  simp [clearCompleted, List.mem_filter]

/-- C1: for every draft title whose length is in the valid range (at least 3
characters up to the active maximum), the create pipeline's validation
succeeds and the issued create body carries `completed = false`; for every
title shorter than 3 characters the draft is rejected with the field
message "Title must be at least 3 characters" and no create request is
issued (`Except.error` reifies "resolver failed, `onSubmit` never ran"). -/
theorem c1_create_title_validation (title : String) :
    (3 ≤ title.length → title.length ≤ maxTitleLength →
      todoFormSubmit title = Except.ok { title := title, completed := false } ∧
      ∀ todos now, localAddTodo todos now title =
        todos ++ [{ id := now, title := title, completed := false }]) ∧
    (title.length < 3 →
      ∃ issues, todoFormSubmit title = Except.error issues ∧
        Issue.mk ["title"] "Title must be at least 3 characters" ∈ issues) := by
  constructor
  · intro h3 hmax
    have hnil : titleIssues title = [] := by
      unfold titleIssues
      rw [if_neg (by omega), if_neg (by omega)]
      rfl
    exact ⟨by simp [todoFormSubmit, createTodoParse, hnil], fun todos now => rfl⟩
  · intro h3
    have hone : titleIssues title =
        [Issue.mk ["title"] "Title must be at least 3 characters"] := by
      unfold titleIssues
      rw [if_pos h3, if_neg (by unfold maxTitleLength; omega)]
      rfl
    refine ⟨[Issue.mk ["title"] "Title must be at least 3 characters"], ?_, by simp⟩
    simp [todoFormSubmit, hone]

theorem c1_create_title_validation_witness :
    todoFormSubmit "abc" = Except.ok { title := "abc", completed := false } ∧
    localAddTodo [] 5 "abc" = [{ id := 5, title := "abc", completed := false }] ∧
    (∃ issues, todoFormSubmit "ab" = Except.error issues ∧
      Issue.mk ["title"] "Title must be at least 3 characters" ∈ issues) :=
  ⟨((c1_create_title_validation "abc").1 (by decide) (by decide)).1,
   ((c1_create_title_validation "abc").1 (by decide) (by decide)).2 [] 5,
   (c1_create_title_validation "ab").2 (by decide)⟩

/-- C8: for every values map held by the generic form-state hook, submit
invokes the caller-supplied handler with the current values and resets
values to their initial state exactly when every field has a non-empty
value; otherwise it records a "This field is required" error for each empty
field, publishes that errors map, and does not invoke the handler. -/
theorem c8_form_submit_requires_nonempty (init : List (String × String))
    (st : FormState) :
    ((∀ p ∈ st.values, p.2 ≠ "") →
      handleSubmit init st = ({ values := init, errors := st.errors }, some st.values)) ∧
    ((∃ p ∈ st.values, p.2 = "") →
      (handleSubmit init st).2 = none ∧
      (handleSubmit init st).1.values = st.values ∧
      (handleSubmit init st).1.errors = requiredErrors st.values ∧
      ∀ p ∈ st.values, p.2 = "" →
        (p.1, "This field is required") ∈ (handleSubmit init st).1.errors) := by
  have hnil : requiredErrors st.values = [] ↔ ∀ p ∈ st.values, p.2 ≠ "" := by
    simp [requiredErrors, List.map_eq_nil_iff, List.filter_eq_nil_iff]
  constructor
  · intro h
    simp [handleSubmit, hnil.2 h]
  · intro h
    have hne : ¬ requiredErrors st.values = [] := by
      intro hcontra
      obtain ⟨p, hp, hpe⟩ := h
      exact hnil.1 hcontra p hp hpe
    refine ⟨?_, ?_, ?_, ?_⟩ <;> simp only [handleSubmit, if_neg hne]
    · intro p hp hpe
      simp only [requiredErrors, List.mem_map]
      exact ⟨p, List.mem_filter.2 ⟨hp, by simp [hpe]⟩, rfl⟩

theorem c8_form_submit_requires_nonempty_witness :
    handleSubmit [("email", ""), ("password", "")]
        { values := [("email", "a@b.c"), ("password", "secret")], errors := [] } =
      ({ values := [("email", ""), ("password", "")], errors := [] },
        some [("email", "a@b.c"), ("password", "secret")]) ∧
    ((handleSubmit [("email", ""), ("password", "")]
        { values := [("email", "a@b.c"), ("password", "")], errors := [] }).2 = none ∧
      (handleSubmit [("email", ""), ("password", "")]
        { values := [("email", "a@b.c"), ("password", "")], errors := [] }).1.errors =
        [("password", "This field is required")]) := by
  have h1 := (c8_form_submit_requires_nonempty [("email", ""), ("password", "")]
    { values := [("email", "a@b.c"), ("password", "secret")], errors := [] }).1
    (by decide)
  have h2 := (c8_form_submit_requires_nonempty [("email", ""), ("password", "")]
    { values := [("email", "a@b.c"), ("password", "")], errors := [] }).2
    ⟨("password", ""), by simp, rfl⟩
  exact ⟨h1, h2.1, by rw [h2.2.2.1]; rfl⟩

theorem apiErrorParse_eq_none_iff (v : JValue) :
    apiErrorParse v = none ↔ apiErrorConforms v = false := by
  cases v with
  | jnull => simp [apiErrorParse, apiErrorConforms]
  | jbool b => simp [apiErrorParse, apiErrorConforms]
  | jnum n => simp [apiErrorParse, apiErrorConforms]
  | jstr s => simp [apiErrorParse, apiErrorConforms]
  | jarr xs => simp [apiErrorParse, apiErrorConforms]
  | jobj fs =>
      rcases hm : jGet fs "message" with _ | mv
      · simp [apiErrorParse, apiErrorConforms, hm]
      · cases mv with
        | jstr m =>
            rcases hc : jGet fs "code" with _ | cv
            · rcases hd : jGet fs "details" with _ | dv
              · simp [apiErrorParse, apiErrorConforms, hm, hc, hd,
                  parseOptNum, parseOptRecord]
              · cases dv <;>
                  simp [apiErrorParse, apiErrorConforms, hm, hc, hd,
                    parseOptNum, parseOptRecord]
            · cases cv <;>
                rcases hd : jGet fs "details" with _ | dv <;>
                  (try cases dv) <;>
                    simp [apiErrorParse, apiErrorConforms, hm, hc, hd,
                      parseOptNum, parseOptRecord]
        | jnull => simp [apiErrorParse, apiErrorConforms, hm]
        | jbool b => simp [apiErrorParse, apiErrorConforms, hm]
        | jnum n => simp [apiErrorParse, apiErrorConforms, hm]
        | jarr xs => simp [apiErrorParse, apiErrorConforms, hm]
        | jobj o => simp [apiErrorParse, apiErrorConforms, hm]

/-- C6: `validateApiError` never raises (it is a total function): when the
input conforms to the Normalized API Error shape it returns the parsed
error object, and for every non-conforming input — malformed error bodies
included — it returns the fallback
`{message: "An unexpected error occurred", code: 500}`. -/
theorem c6_validateApiError_parses_or_falls_back (v : JValue) :
    (apiErrorConforms v = true →
      ∃ e, apiErrorParse v = some e ∧ validateApiError v = e) ∧
    (apiErrorConforms v = false → validateApiError v = fallbackError) := by
  constructor
  · intro h
    rcases he : apiErrorParse v with _ | e
    · have hf := (apiErrorParse_eq_none_iff v).1 he
      rw [hf] at h
      exact absurd h (by decide)
    · exact ⟨e, rfl, by simp [validateApiError, he]⟩
  · intro h
    have hn : apiErrorParse v = none := (apiErrorParse_eq_none_iff v).2 h
    simp [validateApiError, hn]

theorem c6_validateApiError_parses_or_falls_back_witness :
    validateApiError (JValue.jobj [("message", JValue.jstr "boom"), ("code", JValue.jnum 404)]) =
      { message := "boom", code := some 404, details := none } ∧
    validateApiError (JValue.jstr "oops") = fallbackError := by
  constructor
  · obtain ⟨e, hp, hv⟩ :=
      (c6_validateApiError_parses_or_falls_back
        (JValue.jobj [("message", JValue.jstr "boom"), ("code", JValue.jnum 404)])).1
        (by decide)
    have hc : apiErrorParse
        (JValue.jobj [("message", JValue.jstr "boom"), ("code", JValue.jnum 404)]) =
        some { message := "boom", code := some 404, details := none } := rfl
    rw [hc] at hp
    injection hp with he
    rw [he]
    exact hv
  · exact (c6_validateApiError_parses_or_falls_back (JValue.jstr "oops")).2 (by decide)

theorem titleIssues_eq_nil (s : String) :
    titleIssues s = [] ↔ 3 ≤ s.length ∧ s.length ≤ maxTitleLength := by
  by_cases h3 : s.length < 3 <;> by_cases h50 : maxTitleLength < s.length <;>
    simp [titleIssues, h3, h50] <;> omega

theorem numFieldIssues_eq_nil (p : String) (o : Option JValue) :
    numFieldIssues p o = [] ↔ isNumField o = true := by
  rcases o with _ | w
  · simp [numFieldIssues, isNumField]
  · cases w <;> simp [numFieldIssues, isNumField]

theorem boolFieldIssues_eq_nil (p : String) (o : Option JValue) :
    boolFieldIssues p o = [] ↔ isBoolField o = true := by
  rcases o with _ | w
  · simp [boolFieldIssues, isBoolField]
  · cases w <;> simp [boolFieldIssues, isBoolField]

theorem titleFieldIssues_eq_nil (o : Option JValue) :
    titleFieldIssues o = [] ↔ isTitleField o = true := by
  rcases o with _ | w
  · simp [titleFieldIssues, isTitleField]
  · cases w <;>
      simp [titleFieldIssues, isTitleField, titleIssues_eq_nil,
        Bool.and_eq_true, decide_eq_true_eq]

theorem optDatetimeFieldIssues_eq_nil (p : String) (o : Option JValue) :
    optDatetimeFieldIssues p o = [] ↔ isOptDatetimeField o = true := by
  rcases o with _ | w
  · simp [optDatetimeFieldIssues, isOptDatetimeField]
  · cases w with
    | jstr s =>
        cases hz : isZodDatetime s <;>
          simp [optDatetimeFieldIssues, isOptDatetimeField, hz]
    | jnull => simp [optDatetimeFieldIssues, isOptDatetimeField]
    | jbool b => simp [optDatetimeFieldIssues, isOptDatetimeField]
    | jnum n => simp [optDatetimeFieldIssues, isOptDatetimeField]
    | jarr xs => simp [optDatetimeFieldIssues, isOptDatetimeField]
    | jobj o => simp [optDatetimeFieldIssues, isOptDatetimeField]

theorem todoItemFieldIssues_eq_nil (fs : List (String × JValue)) :
    todoItemFieldIssues fs = [] ↔ todoItemConforms (JValue.jobj fs) = true := by
  simp only [todoItemFieldIssues, todoItemConforms, List.append_eq_nil,
    numFieldIssues_eq_nil, titleFieldIssues_eq_nil, boolFieldIssues_eq_nil,
    optDatetimeFieldIssues_eq_nil, Bool.and_eq_true]

/-- A conforming API response carrying one undeclared key, and the same
object as `todoItemSchema.parse` gives it back. -/
def extraKeyTodoJson : JValue :=
  JValue.jobj [("id", JValue.jnum 1), ("title", JValue.jstr "abc"),
    ("completed", JValue.jbool false), ("userId", JValue.jnum 7)]

/-- C7 counterexample: the input conforms to `todoItemSchema` (zod's
non-strict object parse accepts undeclared keys), yet `validateApiResponse`
returns the parsed object with the undeclared `userId` key stripped — not a
value equal to its input. -/
theorem c7_counterexample_strips_unknown_key :
    todoItemConforms extraKeyTodoJson = true ∧
    validateApiResponse todoItemParse extraKeyTodoJson =
      Except.ok (JValue.jobj [("id", JValue.jnum 1), ("title", JValue.jstr "abc"),
        ("completed", JValue.jbool false)]) ∧
    validateApiResponse todoItemParse extraKeyTodoJson ≠ Except.ok extraKeyTodoJson := by
  refine ⟨by decide, rfl, ?_⟩
  intro h
  rw [show validateApiResponse todoItemParse extraKeyTodoJson =
      Except.ok (JValue.jobj [("id", JValue.jnum 1), ("title", JValue.jstr "abc"),
        ("completed", JValue.jbool false)]) from rfl] at h
  simp [extraKeyTodoJson] at h

/-- C7 (amended): for every input value, `validateApiResponse` with
`todoItemSchema` returns the parsed value — the input's declared-key fields
in declaration order, undeclared keys stripped, hence equal to the input
exactly when the input consists of the declared keys in that order — when
the input conforms to the schema, and raises a distinguishable
`ValidationError` carrying the non-empty structured issue list exactly when
the input does not conform. -/
theorem c7_amended_validateApiResponse (v : JValue) :
    (todoItemConforms v = true →
      ∃ fs, v = JValue.jobj fs ∧
        validateApiResponse todoItemParse v =
          Except.ok (JValue.jobj (stripToTodoItem fs))) ∧
    (todoItemConforms v = false →
      ∃ issues, issues ≠ [] ∧
        validateApiResponse todoItemParse v =
          Except.error { name := "ValidationError",
                         message := "API response validation failed",
                         errors := issues }) := by
  constructor
  · intro h
    cases v with
    | jobj fs =>
        refine ⟨fs, rfl, ?_⟩
        have hnil : todoItemFieldIssues fs = [] := (todoItemFieldIssues_eq_nil fs).2 h
        simp [validateApiResponse, todoItemParse, hnil]
    | jnull => exact absurd h (by decide)
    | jbool b => exact absurd h (by simp [todoItemConforms])
    | jnum n => exact absurd h (by simp [todoItemConforms])
    | jstr s => exact absurd h (by simp [todoItemConforms])
    | jarr xs => exact absurd h (by simp [todoItemConforms])
  · intro h
    cases v with
    | jobj fs =>
        have hne : todoItemFieldIssues fs ≠ [] := by
          intro hc
          rw [(todoItemFieldIssues_eq_nil fs).1 hc] at h
          exact absurd h (by decide)
        cases hi : todoItemFieldIssues fs with
        | nil => exact absurd hi hne
        | cons a l =>
            exact ⟨a :: l, by simp, by simp [validateApiResponse, todoItemParse, hi]⟩
    | jnull => exact ⟨[⟨[], "Expected object, received null"⟩], by simp, rfl⟩
    | jbool b => exact ⟨[⟨[], "Expected object, received boolean"⟩], by simp, rfl⟩
    | jnum n => exact ⟨[⟨[], "Expected object, received number"⟩], by simp, rfl⟩
    | jstr s => exact ⟨[⟨[], "Expected object, received string"⟩], by simp, rfl⟩
    | jarr xs => exact ⟨[⟨[], "Expected object, received array"⟩], by simp, rfl⟩

theorem c7_amended_validateApiResponse_witness :
    validateApiResponse todoItemParse
        (JValue.jobj [("id", JValue.jnum 1), ("title", JValue.jstr "abc"),
          ("completed", JValue.jbool false)]) =
      Except.ok (JValue.jobj [("id", JValue.jnum 1), ("title", JValue.jstr "abc"),
        ("completed", JValue.jbool false)]) ∧
    (∃ issues, issues ≠ [] ∧
      validateApiResponse todoItemParse JValue.jnull =
        Except.error { name := "ValidationError",
                       message := "API response validation failed",
                       errors := issues }) := by
  constructor
  · obtain ⟨fs, hv, hok⟩ :=
      (c7_amended_validateApiResponse
        (JValue.jobj [("id", JValue.jnum 1), ("title", JValue.jstr "abc"),
          ("completed", JValue.jbool false)])).1 (by decide)
    injection hv with hfs
    rw [← hfs] at hok
    exact hok
  · exact (c7_amended_validateApiResponse JValue.jnull).2 rfl

/-- C9 counterexample: the local-only create path applies no title
validation — its hand-rolled form gate accepts any title with non-empty
trim, and `useTodos.addTodo` stores the draft verbatim — so one create
operation reaches a state whose task has a 2-character title, below the
configured minimum of 3. -/
theorem c9_counterexample_short_title_reachable :
    handRolledFormAccepts "ab" = true ∧
    applyLocalOp [] (LocalOp.add 0 "ab") =
      [{ id := 0, title := "ab", completed := false }] ∧
    ¬ TitleInBounds { id := 0, title := "ab", completed := false } := by
  refine ⟨by decide, rfl, by decide⟩

/-- C9 (amended): every created task starts with `completed = false` and the
completed field is a boolean by construction; toggle, delete and
clearCompleted preserve the title-bounds invariant, but the local-only add
operation enforces no title validation, so states reachable through the
task operations satisfy the invariant exactly under the assumption that
every added title is itself within the configured bounds (the remote create
path enforces this through the create schema; the local-only path does
not). -/
theorem c9_amended_local_ops_invariant (init : List Todo) (ops : List LocalOp)
    (hinit : ∀ t ∈ init, TitleInBounds t)
    (hops : ∀ op ∈ ops, addsInBounds op) :
    ∀ t ∈ ops.foldl applyLocalOp init, TitleInBounds t := by
  induction ops generalizing init with
  | nil => simpa using hinit
  | cons op rest ih =>
      simp only [List.foldl_cons]
      apply ih
      · cases op with
        | add now title =>
            intro t ht
            simp only [applyLocalOp, localAddTodo, List.mem_append,
              List.mem_singleton] at ht
            rcases ht with h | rfl
            · exact hinit t h
            · exact hops (LocalOp.add now title) (by simp)
        | toggle id =>
            intro t ht
            simp only [applyLocalOp, toggleTodo, List.mem_map] at ht
            obtain ⟨u, hu, rfl⟩ := ht
            by_cases h : u.id = id
            · simpa [h, TitleInBounds] using hinit u hu
            · simpa [h] using hinit u hu
        | del id =>
            intro t ht
            exact hinit t (List.mem_of_mem_filter ht)
        | clear =>
            intro t ht
            exact hinit t (List.mem_of_mem_filter ht)
      · intro o ho
        exact hops o (List.mem_cons_of_mem op ho)

theorem c9_amended_local_ops_invariant_witness :
    TitleInBounds { id := 0, title := "abc", completed := true } := by
  refine c9_amended_local_ops_invariant [] [LocalOp.add 0 "abc", LocalOp.toggle 0]
    (by simp) ?_ _ ?_
  · intro op hop
    rcases List.mem_cons.1 hop with rfl | hop
    · exact ⟨by decide, by decide⟩
    · rcases List.mem_cons.1 hop with rfl | hop
      · trivial
      · cases hop
  · decide
